import Mathlib

/-!
Shallow embedding of the availability and booking core of the
appointment-booking backend (Express + Prisma).

Conventions used throughout:

* All instants are natural numbers counting minutes.  A calendar date is a
  day index `d : Nat`; the absolute minute of wall-clock minute `m` on day
  `d` is `d * 1440 + m`.  Schedule and exception time-of-day columns
  ("HH:mm" strings in the Prisma schema) are embedded as minutes of day;
  `DateTime` columns (appointment `startTime`/`endTime`, token `expiresAt`)
  as absolute minutes.
* The day of week of day index `d` is taken to be `d % 7` (the epoch
  convention is irrelevant to every statement below).
* Appointment `status` is a string column restricted by the Joi validator
  to pending / confirmed / cancelled, embedded as an enumeration.
* The while-loops of the slot generators are embedded with an explicit
  fuel argument consumed one unit per iteration; the wrappers pass
  `end - start` as fuel, which bounds the iteration count whenever
  `slotDuration ≥ 1` (the Joi schedule validator enforces
  `slotDuration ∈ [5, 120]`), so the fuelled loop agrees with the
  source's unbounded loop on all states reachable through validation.
-/

namespace Booking

/-- Appointment status (Prisma `Appointment.status`, a VarChar constrained by
Joi to these three values). -/
inductive Status
  | pending
  | confirmed
  | cancelled
deriving DecidableEq, Repr

/-- Prisma model `Appointment` (prisma/schema.prisma).  `startTime` and
`endTime` are absolute minutes; audit columns (`createdAt`, `updatedAt`) are
omitted as no claim mentions them. -/
structure Appointment where
  id : Nat
  businessId : Nat
  branchId : Option Nat := none
  workerId : Option Nat := none
  clientName : String := ""
  clientEmail : String := ""
  clientPhone : String := ""
  startTime : Nat
  endTime : Nat
  status : Status
deriving DecidableEq, Repr

/-- Prisma model `Schedule`.  `startTime`/`endTime` are "HH:mm" strings in
the schema, embedded as minutes of day. -/
structure Schedule where
  businessId : Nat
  branchId : Option Nat := none
  workerId : Option Nat := none
  dayOfWeek : Nat
  startTime : Nat
  endTime : Nat
  slotDuration : Nat
deriving DecidableEq, Repr

/-- Prisma model `Exception` (date-specific override).  `date` is a day
index; `startTime`/`endTime` are nullable "HH:mm" strings, embedded as
`Option Nat` minutes of day. -/
structure ExceptionRule where
  businessId : Nat
  branchId : Option Nat := none
  workerId : Option Nat := none
  date : Nat
  isClosed : Bool
  startTime : Option Nat := none
  endTime : Option Nat := none
deriving DecidableEq, Repr

/-- Prisma model `TemporaryToken`.  `expiresAt` is an absolute minute. -/
structure TemporaryToken where
  id : Nat := 0
  token : String
  appointmentId : Nat
  clientEmail : String
  expiresAt : Nat
  used : Bool := false
deriving DecidableEq, Repr

/-- A generated availability slot (row of Prisma model `AvailableSlots`,
and the objects pushed by the availability route).  Times are absolute
minutes. -/
structure Slot where
  businessId : Nat
  branchId : Option Nat := none
  workerId : Option Nat := none
  date : Nat
  startTime : Nat
  endTime : Nat
deriving DecidableEq, Repr

/-- Absolute minute of wall-clock minute `m` on day `d`. -/
def slotAt (d m : Nat) : Nat := d * 1440 + m

/-! ## Slot generation, cron variant
(`generateSlots` in src/unnamed/part_009, the daily AvailableSlots job).

The source iterates `currentDate` from `startDate` to `endDate` and, on the
days with `schedule.dayOfWeek === currentDate.day()`, runs the inner
`while (start.isBefore(end))` loop.  `generateSlotsDay` embeds the body for
one day; `generateSlots` embeds the outer date loop over a list of days. -/

/-- The `isBlocked` test of `generateSlots` (part_009 lines 244–254): an
exception on the same day blocks a slot when it is a full closure, or when
both of its times are set and the slot start lies in
`[e.startTime, e.endTime)`. -/
def isBlocked (exceptions : List ExceptionRule) (d : Nat) (start : Nat) : Bool :=
  exceptions.any fun e =>
    decide (e.date = d) &&
      (e.isClosed ||
        (match e.startTime, e.endTime with
         | some exS, some exE =>
             decide (slotAt d exS ≤ start) && decide (start < slotAt d exE)
         | _, _ => false))

/-- The `isBooked` test of `generateSlots` (part_009 lines 255–257): an
appointment books a slot when its start is the same minute as the slot
start and its status is not cancelled. -/
def isBooked (appointments : List Appointment) (start : Nat) : Bool :=
  appointments.any fun a =>
    decide (a.startTime = start) && decide (a.status ≠ Status.cancelled)

/-- Inner while-loop of `generateSlots`: from `start`, step `slotDuration`,
while `start < endT`; a slot is pushed when neither blocked nor booked. -/
def generateSlotsLoop (sched : Schedule) (d : Nat) (exceptions : List ExceptionRule)
    (appointments : List Appointment) : Nat → Nat → Nat → List Slot
  | 0, _, _ => []
  | fuel + 1, start, endT =>
    if start < endT then
      let slotEnd := start + sched.slotDuration
      (if isBlocked exceptions d start || isBooked appointments start then []
       else [{ businessId := sched.businessId, branchId := sched.branchId,
               workerId := sched.workerId, date := d,
               startTime := start, endTime := slotEnd }]) ++
        generateSlotsLoop sched d exceptions appointments fuel slotEnd endT
    else []

/-- Slots the cron job generates for `sched` on day `d` (body of the outer
date loop of `generateSlots`, guarded by the day-of-week match). -/
def generateSlotsDay (sched : Schedule) (d : Nat) (exceptions : List ExceptionRule)
    (appointments : List Appointment) : List Slot :=
  if sched.dayOfWeek = d % 7 then
    generateSlotsLoop sched d exceptions appointments
      (slotAt d sched.endTime - slotAt d sched.startTime)
      (slotAt d sched.startTime) (slotAt d sched.endTime)
  else []

/-- Outer date loop of `generateSlots` over a list of day indices. -/
def generateSlots (sched : Schedule) (days : List Nat) (exceptions : List ExceptionRule)
    (appointments : List Appointment) : List Slot :=
  (days.map fun d => generateSlotsDay sched d exceptions appointments).flatten

/-! ## Slot generation, availability route variant
(GET /business/:username/availability, src/src/routes/public.js lines
39–108, first route variant).

The route builds every slot `Date` from the string
`2023-01-01T${schedule.startTime}` — a constant anchor date — while the
appointments fetched for the requested date carry their real dates.  The
exception list it passes in has already been filtered by
`date: parsedDate` in the Prisma query, so no date test appears in the
loop. -/

/-- Day index of 2023-01-01, the anchor date hard-coded by the availability
route when building slot `Date`s. -/
def anchorDay : Nat := 19358

/-- The exception sub-range conjunct of the route's filter,
`exc.startTime <= slotEnd && exc.endTime >= currentTime` (public.js lines
89–90).  `Exception.startTime`/`endTime` are nullable "HH:mm" `String`
columns while `slotEnd`/`currentTime` are JS `Date`s; a JS relational
comparison between such a string and a `Date` coerces the string with
`ToNumber`, which yields `NaN`, and every comparison involving `NaN` is
false.  The conjunct is therefore identically false, whatever the row
holds. -/
def excWindowTest (_e : ExceptionRule) (_start _slotEnd : Nat) : Bool := false

/-- While-loop of the availability route (public.js lines 87–101): from the
anchored schedule start, step `slotDuration`, while `currentTime < endTime`;
a slot is pushed unless some exception is closed (or passes the dead
string/Date window test) or some appointment satisfies
`appt.startTime <= slotEnd && appt.endTime >= currentTime`. -/
def availabilityLoop (sched : Schedule) (exceptions : List ExceptionRule)
    (appointments : List Appointment) : Nat → Nat → Nat → List Slot
  | 0, _, _ => []
  | fuel + 1, currentTime, endTime =>
    if currentTime < endTime then
      let slotEnd := currentTime + sched.slotDuration
      (if !(exceptions.any fun e => e.isClosed || excWindowTest e currentTime slotEnd) &&
          !(appointments.any fun a =>
              decide (a.startTime ≤ slotEnd) && decide (currentTime ≤ a.endTime)) then
         [{ businessId := sched.businessId, branchId := sched.branchId,
            workerId := sched.workerId, date := anchorDay,
            startTime := currentTime, endTime := slotEnd }]
       else []) ++
        availabilityLoop sched exceptions appointments fuel slotEnd endTime
    else []

/-- `availableSlots` as computed by the availability route: the per-schedule
loops concatenated in schedule order (the source pushes into one array
inside `schedules.forEach`). -/
def availabilitySlots (schedules : List Schedule) (exceptions : List ExceptionRule)
    (appointments : List Appointment) : List Slot :=
  (schedules.map fun sched =>
    availabilityLoop sched exceptions appointments
      (slotAt anchorDay sched.endTime - slotAt anchorDay sched.startTime)
      (slotAt anchorDay sched.startTime) (slotAt anchorDay sched.endTime)).flatten

/-! ## Candidate tiling

The bare generation common to all three slot loops (availability route,
`generateSlots`, `precalculateAvailableSlots`): from `start`, step `dur`,
while `t < endT`, emit `[t, t + dur)` — with the exclusion tests dropped. -/

/-- A candidate slot: just the half-open time range. -/
structure TimeSlot where
  startTime : Nat
  endTime : Nat
deriving DecidableEq, Repr

/-- Fuelled candidate-generation loop. -/
def candidatesLoop (dur : Nat) : Nat → Nat → Nat → List TimeSlot
  | 0, _, _ => []
  | fuel + 1, t, endT =>
    if t < endT then
      { startTime := t, endTime := t + dur } :: candidatesLoop dur fuel (t + dur) endT
    else []

/-- Candidate slots of window `[start, endT)` at stride `dur`. -/
def candidates (start endT dur : Nat) : List TimeSlot :=
  candidatesLoop dur (endT - start) start endT

/-! ## Booking state: slot claim
(POST /business/:username/appointments, src/src/routes/public.js; first
route variant lines 110–157, second route variant lines 452–572). -/

/-- The body of a claim request after Joi validation
(`createAppointment`/`appointmentSchema`). -/
structure ClaimRequest where
  businessId : Nat
  branchId : Option Nat := none
  workerId : Option Nat := none
  startTime : Nat
  endTime : Nat
  clientName : String := ""
  clientEmail : String := ""
  clientPhone : String := ""
deriving DecidableEq, Repr

/-- Prisma filter `column: value || undefined`: the condition applies only
when the request supplied the value. -/
def optFilter (column : Option Nat) (param : Option Nat) : Bool :=
  match param with
  | none => true
  | some v => decide (column = some v)

/-- The row a successful claim inserts:
`status: 'pending'` with the request's fields
(`tx.appointment.create`, second variant lines 520–532). -/
def mkAppointment (id : Nat) (r : ClaimRequest) : Appointment :=
  { id := id, businessId := r.businessId, branchId := r.branchId,
    workerId := r.workerId, clientName := r.clientName,
    clientEmail := r.clientEmail, clientPhone := r.clientPhone,
    startTime := r.startTime, endTime := r.endTime, status := Status.pending }

/-- The overlap re-check of the second claim variant (public.js lines
502–511), executed BEFORE `prisma.$transaction` (line 519): some
non-cancelled appointment of the same scope with
`startTime <= end && endTime >= start`. -/
def overlappingCheck (db : List Appointment) (r : ClaimRequest) : Bool :=
  db.any fun a =>
    decide (a.businessId = r.businessId) &&
    optFilter a.branchId r.branchId &&
    optFilter a.workerId r.workerId &&
    decide (a.status ≠ Status.cancelled) &&
    decide (a.startTime ≤ r.endTime) && decide (r.startTime ≤ a.endTime)

/-- The `slotTaken` check of the first claim variant (public.js lines
124–130), executed inside `prisma.$transaction`: some non-cancelled
appointment of the business whose `startTime` EQUALS the requested start
(no range comparison). -/
def slotTakenCheck (db : List Appointment) (businessId startTime : Nat) : Bool :=
  db.any fun a =>
    decide (a.businessId = businessId) &&
    decide (a.startTime = startTime) &&
    decide (a.status ≠ Status.cancelled)

/-- First claim variant transaction (public.js lines 123–146): the
equality-only `slotTaken` check and the insert, atomic together.  Returns
`none` for the `Slot taken` rejection. -/
def claimTxEq (db : List Appointment) (r : ClaimRequest) (newId : Nat) :
    Option (List Appointment) :=
  if slotTakenCheck db r.businessId r.startTime then none
  else some (db ++ [mkAppointment newId r])

/-- Interleaved execution of two concurrent claims against the second
variant.  Because the overlap re-check runs before `prisma.$transaction`
and only the insert is inside it, the schedule in which both requests run
their check against the initial table and then both commit their inserts
is admissible; this definition executes exactly that schedule.  Returns
(request 1 succeeded, request 2 succeeded, final appointment table). -/
def twoClaimsInterleaved (db : List Appointment) (r1 r2 : ClaimRequest) :
    Bool × Bool × List Appointment :=
  let ok1 := !overlappingCheck db r1
  let ok2 := !overlappingCheck db r2
  let db1 := if ok1 then db ++ [mkAppointment 1 r1] else db
  let db2 := if ok2 then db1 ++ [mkAppointment 2 r2] else db1
  (ok1, ok2, db2)

/-- Double-booking detector: two distinct non-cancelled appointments of the
same business whose half-open ranges overlap (the spec's central
invariant, negated). -/
def hasOverlappingPair (db : List Appointment) : Bool :=
  db.any fun a => db.any fun b =>
    decide (a.id ≠ b.id) &&
    decide (a.businessId = b.businessId) &&
    decide (a.status ≠ Status.cancelled) &&
    decide (b.status ≠ Status.cancelled) &&
    decide (a.startTime < b.endTime) && decide (b.startTime < a.endTime)

/-- Second claim variant with the notification inside the transaction
(public.js lines 519–566): the `$transaction` callback creates the
appointment, the temporary token and the audit row, then `await`s
`sendEmail`.  A rejected `sendEmail` throws inside the callback, so Prisma
rolls the whole transaction back: nothing is inserted.  `emailOk` is
whether the email dispatch succeeded; returns the appointment and token
tables after the transaction plus whether it committed. -/
def claimTxWithEmail (appointments : List Appointment) (tokens : List TemporaryToken)
    (r : ClaimRequest) (newId : Nat) (tokenStr : String) (now : Nat) (emailOk : Bool) :
    (List Appointment × List TemporaryToken) × Bool :=
  if emailOk then
    ((appointments ++ [mkAppointment newId r],
      tokens ++ [{ token := tokenStr, appointmentId := newId,
                   clientEmail := r.clientEmail, expiresAt := now + 10,
                   used := false }]), true)
  else ((appointments, tokens), false)

/-! ## Booking state: client-token mutation
(PUT /appointments/:id and DELETE /appointments/:id,
src/src/routes/public.js; first route variant lines 159–248). -/

/-- Database state touched by the token-gated routes. -/
structure DB where
  appointments : List Appointment
  tokens : List TemporaryToken
deriving DecidableEq, Repr

/-- The token lookup of the first PUT/DELETE variant (public.js lines
164–166): `temporaryToken.findUnique({ where: { token, used: false,
expiresAt: { gt: new Date() } } })`. -/
def findToken (tokens : List TemporaryToken) (tok : String) (now : Nat) :
    Option TemporaryToken :=
  tokens.find? fun t =>
    decide (t.token = tok) && !t.used && decide (now < t.expiresAt)

/-- `appointment.findUnique({ where: { id } })`. -/
def findAppointment (db : List Appointment) (id : Nat) : Option Appointment :=
  db.find? fun a => decide (a.id = id)

/-- Outcome of the first PUT variant, keyed by the distinct responses the
handler can send (public.js lines 167–206). -/
inductive PutOutcome
  | invalidToken
  | invalidAppointment
  | slotTaken
  | updated
deriving DecidableEq, Repr

/-- The `slotTaken` re-check of the first PUT variant (public.js lines
176–186), run only when both new times were supplied: equality on
`startTime`, excluding the appointment being moved. -/
def putSlotTakenCheck (db : List Appointment) (businessId : Nat)
    (newStart? newEnd? : Option Nat) (apptId : Nat) : Bool :=
  match newStart?, newEnd? with
  | some s, some _ =>
      db.any fun a =>
        decide (a.businessId = businessId) &&
        decide (a.startTime = s) &&
        decide (a.status ≠ Status.cancelled) &&
        decide (a.id ≠ apptId)
  | _, _ => false

/-- The appointment update of the first PUT variant (public.js lines
188–195): optional new times, `status: 'pending'` unconditionally. -/
def putUpdateRow (a : Appointment) (newStart? newEnd? : Option Nat) : Appointment :=
  { a with startTime := newStart?.getD a.startTime,
           endTime := newEnd?.getD a.endTime,
           status := Status.pending }

/-- First PUT variant, executed step by step (public.js lines 159–206).
Each awaited `prisma` write is a separately committed database state —
there is no `$transaction` in this variant — so the returned list is the
sequence of externally visible database states: the initial state, the
state after `appointment.update`, and the state after
`temporaryToken.update`. -/
def putTrace (db : DB) (apptId : Nat) (tok : String)
    (newStart? newEnd? : Option Nat) (now : Nat) : PutOutcome × List DB :=
  match findToken db.tokens tok now with
  | none => (PutOutcome.invalidToken, [db])
  | some t =>
    if t.appointmentId ≠ apptId then (PutOutcome.invalidToken, [db])
    else match findAppointment db.appointments apptId with
      | none => (PutOutcome.invalidAppointment, [db])
      | some a =>
        if a.clientEmail ≠ t.clientEmail then (PutOutcome.invalidAppointment, [db])
        else if putSlotTakenCheck db.appointments a.businessId newStart? newEnd? apptId then
          (PutOutcome.slotTaken, [db])
        else
          let db1 : DB :=
            { db with appointments := db.appointments.map fun x =>
                if x.id = apptId then putUpdateRow x newStart? newEnd? else x }
          let db2 : DB :=
            { db1 with tokens := db1.tokens.map fun tk =>
                if tk.token = tok then { tk with used := true } else tk }
          (PutOutcome.updated, [db, db1, db2])

/-- The appointment update of the DELETE routes (both variants:
public.js lines 229–232 and 786–789): `data: { status: 'cancelled' }` on
the row with the given id, touching nothing else. -/
def cancelRow (id : Nat) (a : Appointment) : Appointment :=
  if a.id = id then { a with status := Status.cancelled } else a

/-- The appointment table after the DELETE update. -/
def cancelInDb (db : List Appointment) (id : Nat) : List Appointment :=
  db.map (cancelRow id)

/-! ## Business status transitions
(PUT /:id in src/src/routes/appointments.js; the same `validTransitions`
table appears in both route variants, lines 10–14 and 144–148). -/

/-- The `validTransitions` table: which `status` values a business update
may move an appointment to, from each current status. -/
def validTransitions : Status → List Status
  | Status.pending => [Status.confirmed, Status.cancelled]
  | Status.confirmed => [Status.cancelled]
  | Status.cancelled => []

/-! ## Helper lemmas -/

/-- A closed exception on day `d` makes `isBlocked` true at every slot
start. -/
theorem isBlocked_of_closed {excs : List ExceptionRule} {d : Nat}
    (h : ∃ e ∈ excs, e.date = d ∧ e.isClosed = true) (t : Nat) :
    isBlocked excs d t = true := by
  obtain ⟨e, he, hd, hc⟩ := h
  exact List.any_eq_true.mpr ⟨e, he, by simp [hd, hc]⟩

/-- When every slot start is blocked, the cron loop produces nothing. -/
theorem generateSlotsLoop_blocked (sched : Schedule) (d : Nat)
    (excs : List ExceptionRule) (appts : List Appointment)
    (h : ∀ t, isBlocked excs d t = true) :
    ∀ fuel cur endT, generateSlotsLoop sched d excs appts fuel cur endT = [] := by
  intro fuel
  induction fuel with
  | zero => intro cur endT; rfl
  | succ n ih =>
    intro cur endT
    simp only [generateSlotsLoop]
    split
    · simp [h, ih]
    · rfl

/-- A closed exception in the (date-filtered) exception list makes the
availability-route loop produce nothing. -/
theorem availabilityLoop_closed (sched : Schedule) (excs : List ExceptionRule)
    (appts : List Appointment) (h : ∃ e ∈ excs, e.isClosed = true) :
    ∀ fuel cur endT, availabilityLoop sched excs appts fuel cur endT = [] := by
  intro fuel
  induction fuel with
  | zero => intro cur endT; rfl
  | succ n ih =>
    intro cur endT
    obtain ⟨e, he, hc⟩ := h
    have hany : (excs.any fun e =>
        e.isClosed || excWindowTest e cur (cur + sched.slotDuration)) = true :=
      List.any_eq_true.mpr ⟨e, he, by simp [hc]⟩
    simp only [availabilityLoop]
    split
    · simp [hany, ih]
    · rfl

/-- Membership in the cron loop output: a slot survives exactly when it is
a slot of the unexcluded loop and neither blocked nor booked at its own
start. -/
theorem mem_generateSlotsLoop (sched : Schedule) (d : Nat)
    (excs : List ExceptionRule) (appts : List Appointment) :
    ∀ fuel cur endT (s : Slot),
      s ∈ generateSlotsLoop sched d excs appts fuel cur endT ↔
        (s ∈ generateSlotsLoop sched d [] [] fuel cur endT ∧
         isBlocked excs d s.startTime = false ∧
         isBooked appts s.startTime = false) := by
  intro fuel
  induction fuel with
  | zero => intro cur endT s; simp [generateSlotsLoop]
  | succ n ih =>
    intro cur endT s
    by_cases hlt : cur < endT
    · simp only [generateSlotsLoop, if_pos hlt]
      have hgate0 : (isBlocked [] d cur || isBooked [] cur) = false := by
        simp [isBlocked, isBooked]
      rw [hgate0]
      constructor
      · intro hmem
        rcases List.mem_append.mp hmem with hL | hR
        · by_cases hg : (isBlocked excs d cur || isBooked appts cur) = true
          · rw [if_pos hg] at hL
            simp at hL
          · rw [if_neg hg] at hL
            have hs := List.mem_singleton.mp hL
            subst hs
            rcases Bool.or_eq_false_iff.mp (Bool.eq_false_iff.mpr hg) with ⟨h1, h2⟩
            exact ⟨List.mem_append.mpr (Or.inl (by simp)), h1, h2⟩
        · have hrec := (ih _ _ s).mp hR
          exact ⟨List.mem_append.mpr (Or.inr hrec.1), hrec.2.1, hrec.2.2⟩
      · rintro ⟨hmem, hnb, hnk⟩
        rcases List.mem_append.mp hmem with hL | hR
        · rw [if_neg (by simp)] at hL
          have hs := List.mem_singleton.mp hL
          subst hs
          have hg : (isBlocked excs d cur || isBooked appts cur) = false := by
            have hb : isBlocked excs d cur = false := hnb
            have hk : isBooked appts cur = false := hnk
            simp [hb, hk]
          exact List.mem_append.mpr (Or.inl (by rw [if_neg (by simp [hg])]; simp))
        · exact List.mem_append.mpr (Or.inr ((ih _ _ s).mpr ⟨hR, hnb, hnk⟩))
    · simp [generateSlotsLoop, if_neg hlt]

/-- Every candidate slot is exactly one stride long and starts before the
window end (the loop guard is `t < endT`). -/
theorem candidatesLoop_shape (dur : Nat) :
    ∀ fuel t endT (s : TimeSlot), s ∈ candidatesLoop dur fuel t endT →
      s.endTime = s.startTime + dur ∧ s.startTime < endT := by
  intro fuel
  induction fuel with
  | zero => intro t endT s hs; simp [candidatesLoop] at hs
  | succ n ih =>
    intro t endT s hs
    simp only [candidatesLoop] at hs
    split at hs
    · rcases List.mem_cons.mp hs with hs | hs
      · subst hs; exact ⟨rfl, by assumption⟩
      · exact ih _ _ s hs
    · simp at hs

/-- When the stride divides the window length, no candidate slot extends
past the window end. -/
theorem candidatesLoop_no_overrun (dur : Nat) :
    ∀ fuel t endT, dur ∣ endT - t →
      ∀ s ∈ candidatesLoop dur fuel t endT, s.endTime ≤ endT := by
  intro fuel
  induction fuel with
  | zero => intro t endT _ s hs; simp [candidatesLoop] at hs
  | succ n ih =>
    intro t endT hdvd s hs
    simp only [candidatesLoop] at hs
    split at hs
    · rename_i hlt
      have hstep : t + dur ≤ endT := by
        have hpos : 0 < endT - t := by omega
        have := Nat.le_of_dvd hpos hdvd
        omega
      rcases List.mem_cons.mp hs with hs | hs
      · subst hs; exact hstep
      · have heq : endT - (t + dur) = (endT - t) - dur := by omega
        exact ih _ _ (heq ▸ Nat.dvd_sub' hdvd dvd_rfl) s hs
    · simp at hs

/-! ## Concrete inputs used by the claim theorems -/

/-- Claim of the 09:00–09:30 slot of business 1 (minutes of day 540–570). -/
def req0930 : ClaimRequest := { businessId := 1, startTime := 540, endTime := 570 }

/-- A pending appointment of business 1 occupying 09:00–10:00. -/
def appt0900to1000 : Appointment :=
  { id := 1, businessId := 1, startTime := 540, endTime := 600,
    status := Status.pending }

/-- Monday-style schedule 09:00–10:00 at 30-minute slots for business 1. -/
def sched0900to1000 : Schedule :=
  { businessId := 1, dayOfWeek := 0, startTime := 540, endTime := 600,
    slotDuration := 30 }

/-- A pending appointment of business 1 on day 0 occupying 09:00–09:30
(the cron job compares times on the appointment's own day). -/
def apptDay0 : Appointment :=
  { id := 1, businessId := 1, startTime := slotAt 0 540, endTime := slotAt 0 600,
    status := Status.pending }

/-- A pending appointment of business 1 on day 20270 (2025-07-01)
occupying 09:00–09:30, in absolute minutes. -/
def apptReal : Appointment :=
  { id := 1, businessId := 1, startTime := slotAt 20270 540,
    endTime := slotAt 20270 570, status := Status.pending }

/-- The 09:00–09:30 slot as the availability route emits it: anchored to
2023-01-01 whatever date was queried. -/
def slot0900Anchored : Slot :=
  { businessId := 1, date := anchorDay, startTime := slotAt anchorDay 540,
    endTime := slotAt anchorDay 570 }

/-- Schedule with window 09:00–09:45 at 30-minute slots (window length not
a multiple of the stride). -/
def sched0945 : Schedule :=
  { businessId := 1, dayOfWeek := 0, startTime := 540, endTime := 585,
    slotDuration := 30 }

/-- A full-day closure exception for business 1 on day 0. -/
def excClosedDay0 : ExceptionRule := { businessId := 1, date := 0, isClosed := true }

/-- Schedule with window 09:00–13:00 at 60-minute slots. -/
def sched0900to1300 : Schedule :=
  { businessId := 1, dayOfWeek := 0, startTime := 540, endTime := 780,
    slotDuration := 60 }

/-- A non-closed exception for day 0 with custom window 10:00–11:00. -/
def excWindow1000to1100 : ExceptionRule :=
  { businessId := 1, date := 0, isClosed := false,
    startTime := some 600, endTime := some 660 }

/-- The weekly 09:00–10:00 slot of `sched0900to1300` on day 0. -/
def slotWeekly0900 : Slot :=
  { businessId := 1, date := 0, startTime := 540, endTime := 600 }

/-- An unused, unexpired temporary token bound to appointment 1, issued for
client email "c@x". -/
def tokenT : TemporaryToken :=
  { token := "t", appointmentId := 1, clientEmail := "c@x", expiresAt := 100 }

/-- Appointment 1 whose clientEmail differs from the token's. -/
def apptWrongEmail : Appointment :=
  { id := 1, businessId := 1, clientEmail := "d@x", startTime := 540,
    endTime := 570, status := Status.pending }

/-- Appointment 1 whose clientEmail matches the token's. -/
def apptRightEmail : Appointment :=
  { id := 1, businessId := 1, clientEmail := "c@x", startTime := 540,
    endTime := 570, status := Status.pending }

/-- Database holding a valid token whose appointment has a different
clientEmail. -/
def dbEmailMismatch : DB := { appointments := [apptWrongEmail], tokens := [tokenT] }

/-- Database holding a matching appointment and token. -/
def dbMatching : DB := { appointments := [apptRightEmail], tokens := [tokenT] }

/-- Database holding an appointment but no token rows. -/
def dbNoToken : DB := { appointments := [apptRightEmail], tokens := [] }

/-! ## Claim theorems -/

/-- C1: the claim the spec makes — that the claim operation re-checks for a
non-cancelled overlapping appointment inside the same transaction as the
insert, so two concurrent claims of the same slot never both succeed — is
violated by the code.  In the second route variant the overlap re-check
(`overlappingCheck`) runs before `prisma.$transaction` and only the insert
is inside it, so the interleaving in which both requests pass the check
against the initial table and then both insert is admissible: both claims
of the same 09:00–09:30 slot succeed and the resulting table contains two
overlapping non-cancelled appointments.  Moreover, the first variant's
in-transaction check (`slotTakenCheck`) compares only exact `startTime`
equality, so it does not even detect a non-cancelled appointment
[09:00,10:00) when the requested slot starts at 09:30. -/
theorem double_booking_interleaving :
    (twoClaimsInterleaved [] req0930 req0930).1 = true ∧
    (twoClaimsInterleaved [] req0930 req0930).2.1 = true ∧
    hasOverlappingPair (twoClaimsInterleaved [] req0930 req0930).2.2 = true ∧
    slotTakenCheck [appt0900to1000] 1 570 = false ∧
    appt0900to1000.status ≠ Status.cancelled ∧
    appt0900to1000.startTime < 630 ∧ 570 < appt0900to1000.endTime := by
  decide

/-- C2: the claim that a candidate slot is excluded exactly when it
half-open-intersects a non-cancelled appointment fails on the code.  The
cron generator keeps the slot [09:30,10:00) even though the non-cancelled
appointment [09:00,10:00) intersects it (only exact start-minute equality
excludes), and the availability route excludes nothing at all for a real
date: its slot `Date`s are anchored to 2023-01-01 while appointments carry
their real dates, so the appointment comparison never fires and the
already-booked 09:00–09:30 slot is still listed. -/
theorem appointment_exclusion_eval :
    generateSlotsDay sched0900to1000 0 [] [apptDay0] =
      [{ businessId := 1, date := 0, startTime := 570, endTime := 600 }] ∧
    apptDay0.status ≠ Status.cancelled ∧
    apptDay0.startTime < 600 ∧ 570 < apptDay0.endTime ∧
    availabilitySlots [sched0900to1000] [] [apptReal] =
      availabilitySlots [sched0900to1000] [] [] ∧
    slot0900Anchored ∈ availabilitySlots [sched0900to1000] [] [apptReal] := by
  decide

/-- C3 counterexample: slot generation runs while `t < end`, not while
`t + D ≤ end`, so for the window 09:00–09:45 at stride 30 the candidate
slot [09:30,10:00) is generated and extends past the window end — both in
the distilled tiling and in the availability route. -/
theorem slot_tiling_counterexample :
    ({ startTime := 570, endTime := 600 } : TimeSlot) ∈ candidates 540 585 30 ∧
    ¬(600 ≤ 585) ∧
    (∃ s ∈ availabilitySlots [sched0945] [] [], slotAt anchorDay 585 < s.endTime) := by
  decide

/-- C3 amended: candidate slots are generated at stride D while t < end,
so each candidate is exactly D minutes long and starts before the window
end, but the final slot may extend past the end when D does not divide the
window length; when D divides the window length no slot extends past the
end, and the Monday 09:00–17:00 window at 30 minutes yields exactly 16
candidates. -/
theorem slot_tiling_amended :
    (∀ start endT dur, 0 < dur → dur ∣ endT - start →
        ∀ s ∈ candidates start endT dur,
          s.endTime = s.startTime + dur ∧ s.startTime < endT ∧ s.endTime ≤ endT) ∧
    (candidates 540 1020 30).length = 16 := by
  constructor
  · intro start endT dur _ hdvd s hs
    rcases candidatesLoop_shape dur _ _ _ s hs with ⟨h1, h2⟩
    exact ⟨h1, h2, candidatesLoop_no_overrun dur _ _ _ hdvd s hs⟩
  · decide

/-- Witness for the amended C3 theorem at the Monday 09:00–17:00 window. -/
theorem slot_tiling_amended_witness :
    (∀ s ∈ candidates 540 1020 30,
      s.endTime = s.startTime + 30 ∧ s.startTime < 1020 ∧ s.endTime ≤ 1020) ∧
    (candidates 540 1020 30).length = 16 :=
  ⟨slot_tiling_amended.1 540 1020 30 (by decide) (by decide),
   slot_tiling_amended.2⟩

/-- C4: an isClosed exception for the scope and date empties the computed
slots regardless of the schedules.  In the cron generator any same-day
closed exception blocks every slot start; in the availability route the
exception list is already date-filtered by the query and any closed row
makes the exclusion test true for every slot of every schedule. -/
theorem exception_closure :
    (∀ sched d excs appts, (∃ e ∈ excs, e.date = d ∧ e.isClosed = true) →
        generateSlotsDay sched d excs appts = []) ∧
    (∀ schedules excs appts, (∃ e ∈ excs, e.isClosed = true) →
        availabilitySlots schedules (excs : List ExceptionRule)
          (appts : List Appointment) = []) := by
  constructor
  · intro sched d excs appts h
    unfold generateSlotsDay
    split
    · exact generateSlotsLoop_blocked sched d excs appts (isBlocked_of_closed h) _ _ _
    · rfl
  · intro schedules excs appts h
    induction schedules with
    | nil => rfl
    | cons sched rest ih =>
      simp only [availabilitySlots, List.map_cons, List.flatten_cons] at ih ⊢
      rw [availabilityLoop_closed sched excs appts h, ih]
      rfl

/-- Witness for C4: a closed exception on day 0 empties both generators for
a schedule that would otherwise produce slots. -/
theorem exception_closure_witness :
    (∃ e ∈ [excClosedDay0], e.date = 0 ∧ e.isClosed = true) ∧
    generateSlotsDay sched0900to1000 0 [excClosedDay0] [] = [] ∧
    availabilitySlots [sched0900to1000] [excClosedDay0] [] = [] :=
  ⟨by decide,
   exception_closure.1 sched0900to1000 0 [excClosedDay0] [] (by decide),
   exception_closure.2 [sched0900to1000] [excClosedDay0] [] (by decide)⟩

/-- C5 counterexample: for the weekly window 09:00–13:00 at 60 minutes and
a non-closed exception 10:00–11:00, the code does not generate the slot
[10:00,11:00) inside the exception window — the only slot the
replace-interpretation mandates — and still produces the weekly slot
[09:00,10:00) outside it, so the exception window does not replace the
weekly window. -/
theorem exception_window_counterexample :
    ({ businessId := 1, date := 0, startTime := 600, endTime := 660 } : Slot) ∉
      generateSlotsDay sched0900to1300 0 [excWindow1000to1100] [] ∧
    ({ businessId := 1, date := 0, startTime := 540, endTime := 600 } : Slot) ∈
      generateSlotsDay sched0900to1300 0 [excWindow1000to1100] [] := by
  decide

/-- C5 amended: a non-closed exception with both times set acts as a
sub-range closure, not a replacement: the weekly schedule window still
generates the candidates, and a candidate survives exactly when its start
does not lie in [excStart, excEnd) and it is not booked; no slot is ever
generated from the exception window itself. -/
theorem exception_window_amended (sched : Schedule) (d exS exE : Nat)
    (appts : List Appointment) (e : ExceptionRule)
    (hclosed : e.isClosed = false) (hdate : e.date = d)
    (hstart : e.startTime = some exS) (hend : e.endTime = some exE) :
    ∀ s : Slot, s ∈ generateSlotsDay sched d [e] appts ↔
      (s ∈ generateSlotsDay sched d [] [] ∧
       ¬(slotAt d exS ≤ s.startTime ∧ s.startTime < slotAt d exE) ∧
       isBooked appts s.startTime = false) := by
  intro s
  unfold generateSlotsDay
  split
  · rw [mem_generateSlotsLoop]
    have hblocked : ∀ t, isBlocked [e] d t =
        (decide (slotAt d exS ≤ t) && decide (t < slotAt d exE)) := by
      intro t
      simp [isBlocked, hdate, hclosed, hstart, hend]
    rw [hblocked]
    constructor
    · rintro ⟨h1, h2, h3⟩
      refine ⟨h1, ?_, h3⟩
      intro ⟨hle, hlt⟩
      simp [hle, hlt] at h2
    · rintro ⟨h1, h2, h3⟩
      refine ⟨h1, ?_, h3⟩
      by_cases hle : slotAt d exS ≤ s.startTime
      · have hnlt : ¬(s.startTime < slotAt d exE) := fun hlt => h2 ⟨hle, hlt⟩
        simp [hnlt]
      · simp [hle]
  · simp

/-- Witness for the amended C5 theorem at the 09:00–13:00 schedule, the
10:00–11:00 exception window and the weekly 09:00–10:00 slot. -/
theorem exception_window_amended_witness :
    slotWeekly0900 ∈ generateSlotsDay sched0900to1300 0 [excWindow1000to1100] [] ↔
      (slotWeekly0900 ∈ generateSlotsDay sched0900to1300 0 [] [] ∧
       ¬(slotAt 0 600 ≤ slotWeekly0900.startTime ∧
         slotWeekly0900.startTime < slotAt 0 660) ∧
       isBooked [] slotWeekly0900.startTime = false) :=
  exception_window_amended sched0900to1300 0 600 660 [] excWindow1000to1100
    (by decide) (by decide) (by decide) (by decide) slotWeekly0900

/-- C6 counterexample: with a token that is unused, unexpired and bound to
the requested appointment but whose clientEmail differs from the
appointment's, the first PUT variant answers with the distinct
'Invalid appointment' error, not the generic 'Invalid or expired token'
error, so the response reveals which check failed. -/
theorem token_error_counterexample :
    (putTrace dbEmailMismatch 1 "t" none none 0).1 = PutOutcome.invalidAppointment ∧
    PutOutcome.invalidAppointment ≠ PutOutcome.invalidToken := by
  decide

/-- C6 amended: the missing/used/expired-token and wrong-appointment checks
all answer with the generic invalid-token error, but a clientEmail
mismatch on a valid token answers with the distinct invalid-appointment
error, revealing that the token itself was valid. -/
theorem token_error_amended (db : DB) (apptId : Nat) (tok : String)
    (newStart? newEnd? : Option Nat) (now : Nat) :
    (findToken db.tokens tok now = none →
       (putTrace db apptId tok newStart? newEnd? now).1 = PutOutcome.invalidToken) ∧
    (∀ t, findToken db.tokens tok now = some t → t.appointmentId ≠ apptId →
       (putTrace db apptId tok newStart? newEnd? now).1 = PutOutcome.invalidToken) ∧
    (∀ t a, findToken db.tokens tok now = some t → t.appointmentId = apptId →
       findAppointment db.appointments apptId = some a →
       a.clientEmail ≠ t.clientEmail →
       (putTrace db apptId tok newStart? newEnd? now).1 =
         PutOutcome.invalidAppointment) := by
  refine ⟨?_, ?_, ?_⟩
  · intro h
    simp [putTrace, h]
  · intro t ht hne
    simp [putTrace, ht, hne]
  · intro t a ht heq ha hne
    simp [putTrace, ht, heq, ha, hne]

/-- Witness for the amended C6 theorem: a missing token, a token bound to a
different appointment, and an email-mismatched token, each at a concrete
database. -/
theorem token_error_amended_witness :
    (putTrace dbNoToken 1 "t" none none 0).1 = PutOutcome.invalidToken ∧
    (putTrace dbMatching 2 "t" none none 0).1 = PutOutcome.invalidToken ∧
    (putTrace dbEmailMismatch 1 "t" none none 0).1 = PutOutcome.invalidAppointment :=
  ⟨(token_error_amended dbNoToken 1 "t" none none 0).1 (by decide),
   (token_error_amended dbMatching 2 "t" none none 0).2.1 tokenT (by decide) (by decide),
   (token_error_amended dbEmailMismatch 1 "t" none none 0).2.2 tokenT apptWrongEmail
     (by decide) (by decide) (by decide) (by decide)⟩

/-- C7: the claim that token consumption and appointment mutation are
atomic fails on the first PUT variant, which issues two separate awaited
updates with no transaction: on a successful reschedule the trace of
committed database states contains a state in which appointment 1 has
already been moved to 10:00 while token "t" is still unused. -/
theorem token_mutation_not_atomic :
    (putTrace dbMatching 1 "t" (some 600) (some 630) 0).1 = PutOutcome.updated ∧
    (∃ mid ∈ (putTrace dbMatching 1 "t" (some 600) (some 630) 0).2,
       (∃ a ∈ mid.appointments, a.id = 1 ∧ a.startTime = 600 ∧
          a.status = Status.pending) ∧
       (∃ tk ∈ mid.tokens, tk.token = "t" ∧ tk.used = false)) := by
  decide

/-- C8: the claim that the notification is fire-and-forget and never rolls
back the booking fails on the second route variant, which awaits
`sendEmail` inside `prisma.$transaction`: when the email dispatch fails
the transaction aborts and the appointment insert is rolled back, while
with a successful dispatch the appointment is committed. -/
theorem notification_rollback :
    (claimTxWithEmail [] [] req0930 1 "tok" 0 false).2 = false ∧
    (claimTxWithEmail [] [] req0930 1 "tok" 0 false).1.1 = [] ∧
    (claimTxWithEmail [] [] req0930 1 "tok" 0 true).1.1 =
      [mkAppointment 1 req0930] := by
  decide

/-- C9: a business status update is accepted exactly for the transitions
pending→confirmed, pending→cancelled and confirmed→cancelled; every
same-state transition and every transition out of cancelled is rejected
by the `validTransitions` table. -/
theorem status_transitions :
    (∀ s t : Status, t ∈ validTransitions s ↔
        ((s = Status.pending ∧ t = Status.confirmed) ∨
         (s = Status.pending ∧ t = Status.cancelled) ∨
         (s = Status.confirmed ∧ t = Status.cancelled))) ∧
    (∀ s : Status, s ∉ validTransitions s) ∧
    (∀ t : Status, t ∉ validTransitions Status.cancelled) := by
  refine ⟨?_, ?_, ?_⟩
  · intro s t
    cases s <;> cases t <;> simp [validTransitions]
  · intro s
    cases s <;> simp [validTransitions]
  · intro t
    cases t <;> simp [validTransitions]

/-- C10: the DELETE update sets the row's status to cancelled and changes
nothing else: every other field of the cancelled row is preserved, and
rows with a different id are untouched entirely. -/
theorem cancel_frame :
    ∀ (id : Nat) (a : Appointment),
      (a.id = id → (cancelRow id a).status = Status.cancelled) ∧
      (a.id ≠ id → cancelRow id a = a) ∧
      (cancelRow id a).startTime = a.startTime ∧
      (cancelRow id a).endTime = a.endTime ∧
      (cancelRow id a).clientName = a.clientName ∧
      (cancelRow id a).clientEmail = a.clientEmail ∧
      (cancelRow id a).clientPhone = a.clientPhone ∧
      (cancelRow id a).businessId = a.businessId ∧
      (cancelRow id a).branchId = a.branchId ∧
      (cancelRow id a).workerId = a.workerId := by
  intro id a
  unfold cancelRow
  by_cases h : a.id = id <;> simp [h]

/-- Witness for C10 at a concrete appointment row. -/
theorem cancel_frame_witness :
    (cancelRow 1 apptRightEmail).status = Status.cancelled ∧
    (cancelRow 1 apptRightEmail).startTime = apptRightEmail.startTime ∧
    (cancelRow 1 apptRightEmail).clientEmail = apptRightEmail.clientEmail :=
  ⟨(cancel_frame 1 apptRightEmail).1 (by decide),
   (cancel_frame 1 apptRightEmail).2.2.1,
   (cancel_frame 1 apptRightEmail).2.2.2.2.2.1⟩

end Booking
